import Mathlib

/-!
Verification development for the EtherealEngine resource-materialization
pipeline (`src/engine/runtime/assets/asset_reader.cpp`) and the camera
clip-plane setters (`src/Engine/Source/Runtime/Rendering/Camera.cpp`).

The C++ closures are embedded as pure Lean functions.  External
collaborators (filesystem byte reader, gfx binding layer, native mesh
builder, serialization decoders) are modelled as explicit environment
records of functions, since their implementations live outside this
repository; the control flow of every embedded function mirrors the
corresponding C++ source line by line.  Shared-pointer buffers captured by
the closures are threaded explicitly: a closure that may observe a
destroyed / reset shared pointer takes and returns an `Option` buffer, and
the returned buffer state records whether the closure released it.
-/

namespace EtherealEngine

/-! ## Task-system scheduling model (`core/subsystem/tasks.hpp` call sites)

Only the submission primitives used by `asset_reader.cpp` are modelled:
which lane a unit of work is placed on, and whether it was submitted as a
continuation awaiting a prior future (`push_awaitable_on_main`). -/

/-- The two execution lanes of the task system. -/
inductive lane where
  | main
  | worker
deriving DecidableEq

/-- How one unit of work was submitted: the lane it was placed on, and
whether it was chained to a prior future as a continuation. -/
structure submission where
  lane : lane
  chained : Bool
deriving DecidableEq

/-- Embedding of `task_system::push_ready`: worker-lane submission, not chained. -/
def push_ready : submission := { lane := lane.worker, chained := false }

/-- Embedding of `task_system::push_ready_on_main`: main-lane submission, not chained. -/
def push_ready_on_main : submission := { lane := lane.main, chained := false }

/-- Embedding of `task_system::push_awaitable_on_main`: main-lane continuation chained
to a prior future. -/
def push_awaitable_on_main : submission := { lane := lane.main, chained := true }

/-- The two submissions made by one `load_from_file` call: the Fetch stage
(`read_memory_func`) and the Materialize stage (`create_resource_func`). -/
structure pipeline_schedule where
  fetch : submission
  materialize : submission
deriving DecidableEq

/-- Embedding of `enum class load_mode`. -/
inductive load_mode where
  | async
  | sync
deriving DecidableEq

/-- The six resource kinds for which `asset_reader::load_from_file` is
specialized. -/
inductive resource_kind where
  | texture
  | shader
  | mesh
  | material
  | prefab
  | scene
deriving DecidableEq

/-- Scheduling tail of `load_from_file<texture>` (asset_reader.cpp:66-79):
async mode pushes Fetch with `push_ready`, sync mode with
`push_ready_on_main`; Materialize is chained with `push_awaitable_on_main`
in both branches. -/
def load_from_file_texture_submissions (mode : load_mode) : pipeline_schedule :=
  if mode = load_mode.async then
    { fetch := push_ready, materialize := push_awaitable_on_main }
  else
    { fetch := push_ready_on_main, materialize := push_awaitable_on_main }

/-- Scheduling tail of `load_from_file<shader>` (asset_reader.cpp:139-152). -/
def load_from_file_shader_submissions (mode : load_mode) : pipeline_schedule :=
  if mode = load_mode.async then
    { fetch := push_ready, materialize := push_awaitable_on_main }
  else
    { fetch := push_ready_on_main, materialize := push_awaitable_on_main }

/-- Scheduling tail of `load_from_file<mesh>` (asset_reader.cpp:203-216). -/
def load_from_file_mesh_submissions (mode : load_mode) : pipeline_schedule :=
  if mode = load_mode.async then
    { fetch := push_ready, materialize := push_awaitable_on_main }
  else
    { fetch := push_ready_on_main, materialize := push_awaitable_on_main }

/-- Scheduling tail of `load_from_file<material>` (asset_reader.cpp:251-264). -/
def load_from_file_material_submissions (mode : load_mode) : pipeline_schedule :=
  if mode = load_mode.async then
    { fetch := push_ready, materialize := push_awaitable_on_main }
  else
    { fetch := push_ready_on_main, materialize := push_awaitable_on_main }

/-- Scheduling tail of `load_from_file<prefab>` (asset_reader.cpp:299-312). -/
def load_from_file_prefab_submissions (mode : load_mode) : pipeline_schedule :=
  if mode = load_mode.async then
    { fetch := push_ready, materialize := push_awaitable_on_main }
  else
    { fetch := push_ready_on_main, materialize := push_awaitable_on_main }

/-- Scheduling tail of `load_from_file<scene>` (asset_reader.cpp:347-360). -/
def load_from_file_scene_submissions (mode : load_mode) : pipeline_schedule :=
  if mode = load_mode.async then
    { fetch := push_ready, materialize := push_awaitable_on_main }
  else
    { fetch := push_ready_on_main, materialize := push_awaitable_on_main }

/-- Dispatch of the per-kind `load_from_file` specializations to their
scheduling tails. -/
def load_from_file_submissions : resource_kind → load_mode → pipeline_schedule
  | resource_kind.texture => load_from_file_texture_submissions
  | resource_kind.shader => load_from_file_shader_submissions
  | resource_kind.mesh => load_from_file_mesh_submissions
  | resource_kind.material => load_from_file_material_submissions
  | resource_kind.prefab => load_from_file_prefab_submissions
  | resource_kind.scene => load_from_file_scene_submissions

/-! ## Resource handles and payload types -/

/-- The shared cell behind an `asset_handle<T>`: `asset_link` with fields
`id` and `asset` (a possibly-null `shared_ptr<T>`, modelled as `Option`). -/
structure asset_link (α : Type) where
  id : String
  asset : Option α
deriving DecidableEq

/-- Embedding of `asset_handle<T>`: a handle over the shared link cell. -/
structure asset_handle (α : Type) where
  link : asset_link α
deriving DecidableEq

/-- A default-constructed `asset_handle<T>`: empty id, null asset. -/
def asset_handle.empty (α : Type) : asset_handle α :=
  { link := { id := "", asset := none } }

/-- A byte array (`fs::byte_array_t`); bytes as naturals. -/
abbrev byte_array_t := List Nat

/-- A native texture object: constructed from one copied gfx memory block
(`texture(mem, 0, 0, nullptr)`). -/
structure texture where
  mem : byte_array_t
deriving DecidableEq

/-- A uniform object; `uniform::populate(uni)` stores the reflected
gfx uniform handle. -/
structure uniform where
  handle : Nat
deriving DecidableEq

/-- A shader object: native handle set by `shader::populate(mem)` plus the
attached uniform objects, in attachment order. -/
structure shader where
  handle : Nat
  uniforms : List uniform
deriving DecidableEq

/-- The status of a native mesh after preparation / building
(`mesh_status`); only `prepared` is inspected by the loader. -/
inductive mesh_status where
  | not_prepared
  | preparing
  | prepared
deriving DecidableEq

/-- The native `::mesh` object, abstracted: the loader observes only its
status; remaining native state is opaque content transformed by the
binding-layer operations of `mesh_env`. -/
structure mesh where
  status : mesh_status
  content : Nat
deriving DecidableEq

/-- Embedding of `mesh::load_data`: the intermediate record decoded by the mesh Fetch
stage.  A default-constructed record has empty vectors and zero counts. -/
structure mesh_load_data where
  vertex_format : Nat
  vertex_data : byte_array_t
  vertex_count : Nat
  triangle_data : List Nat
  skin_data : Nat
  root_node : Nat
deriving DecidableEq

/-- Default-constructed `mesh::load_data`. -/
def mesh_load_data.empty : mesh_load_data :=
  { vertex_format := 0, vertex_data := [], vertex_count := 0,
    triangle_data := [], skin_data := 0, root_node := 0 }

/-- A material value decoded by the associative archive; content opaque. -/
structure material where
  data : List Nat
deriving DecidableEq

/-- A default-constructed (`std::make_shared<material>()`) material. -/
def material.empty : material := { data := [] }

/-- An `std::istringstream` over the bytes read from disk. -/
structure istream where
  contents : byte_array_t
deriving DecidableEq

/-- A prefab resource: wraps the fetched stream (`pfab->data`), which may
be a null shared pointer. -/
structure prefab where
  data : Option istream
deriving DecidableEq

/-- A scene resource: wraps the fetched stream (`sc->data`). -/
structure scene where
  data : Option istream
deriving DecidableEq

/-! ## External collaborator environments -/

/-- Filesystem collaborators: protocol resolution, per-kind compiled
suffix, and `fs::read_stream`, which returns the file's bytes and yields
an empty array for a missing/unreadable file. -/
structure fs_env where
  resolve_protocol : String → String
  compiled_format_texture : String
  read_stream : String → byte_array_t

/-- Graphics binding layer collaborators used by the loader.  `copy`
models `gfx::copy(ptr, size)` over a possibly-null pointer and returns the
copied memory block or null; `createShader` models the native handle
produced by `shader::populate`; `getShaderUniforms` models the two-call
reflection pattern (count, then fill) as the reflected handle list in
reflection order. -/
structure gfx_env where
  copy : Option byte_array_t → Nat → Option byte_array_t
  createShader : byte_array_t → Nat
  getShaderUniforms : Nat → List Nat

/-- Native mesh-builder collaborators (`::mesh` member functions called by
the loader, all external to this repository). -/
structure mesh_env where
  prepare_mesh : mesh → Nat → mesh
  set_vertex_source : mesh → Nat → Nat → Nat → mesh
  add_primitives : mesh → List Nat → mesh
  bind_skin : mesh → Nat → mesh
  bind_armature : mesh → Nat → mesh
  end_prepare : mesh → mesh
  build_vb : mesh → mesh
  build_ib : mesh → mesh

/-! ## Fetch / Materialize closures, per resource kind

Each C++ closure becomes one function.  Captured shared-pointer buffers
are passed in (`none` models a null / destroyed pointer) and the buffer's
state after the call is part of the result, so release (`clear` +
`reset`) is observable. -/

/-- Embedding of `load_from_file<texture>::read_memory_func` (asset_reader.cpp:31-40):
returns false if the captured byte-array pointer is null, otherwise
replaces the buffer's contents with whatever `fs::read_stream` yields for
the compiled file and returns true.  Result: (buffer after, return
value). -/
def texture_read_memory_func (fsenv : fs_env) (compiled_absolute_key : String)
    (read_memory : Option byte_array_t) : Option byte_array_t × Bool :=
  match read_memory with
  | none => (none, false)
  | some _ => (some (fsenv.read_stream compiled_absolute_key), true)

/-- Embedding of `load_from_file<texture>::create_resource_func` (asset_reader.cpp:42-63):
returns the captured handle unchanged if the buffer pointer is null or the
buffer is empty; otherwise copies the bytes into a gfx memory block,
clears the buffer and resets its pointer, and publishes a new texture into
the handle when the block is non-null.  Result: (handle after, buffer
after). -/
def texture_create_resource_func (genv : gfx_env) (key : String)
    (result : asset_handle texture) (read_memory : Option byte_array_t) :
    asset_handle texture × Option byte_array_t :=
  match read_memory with
  | none => (result, none)
  | some bytes =>
    if bytes = [] then
      (result, some bytes)
    else
      match genv.copy (some bytes) bytes.length with
      | none => (result, none)
      | some mem =>
        ({ link := { id := key, asset := some { mem := mem } } }, none)

/-- Embedding of `load_from_file<shader>::read_memory_func` (asset_reader.cpp:90-98):
identical control flow to the texture fetch. -/
def shader_read_memory_func (fsenv : fs_env) (compiled_absolute_key : String)
    (read_memory : Option byte_array_t) : Option byte_array_t × Bool :=
  match read_memory with
  | none => (none, false)
  | some _ => (some (fsenv.read_stream compiled_absolute_key), true)

/-- Embedding of `load_from_file<shader>::create_resource_func` (asset_reader.cpp:101-137):
after the null / emptiness guards, copies the bytes, clears and resets the
buffer, and on a non-null block populates a shader, then attaches one
uniform object per reflected uniform handle, preserving reflection order
(the `uniform_count > 0` branch collapses to a map over the reflected
list, which is empty when the count is zero). -/
def shader_create_resource_func (genv : gfx_env) (key : String)
    (result : asset_handle shader) (read_memory : Option byte_array_t) :
    asset_handle shader × Option byte_array_t :=
  match read_memory with
  | none => (result, none)
  | some bytes =>
    if bytes = [] then
      (result, some bytes)
    else
      match genv.copy (some bytes) bytes.length with
      | none => (result, none)
      | some mem =>
        let h := genv.createShader mem
        let uniforms := (genv.getShaderUniforms h).map (fun uni => { handle := uni : uniform })
        ({ link := { id := key, asset := some { handle := h, uniforms := uniforms } } }, none)

/-- Modelled from the spec: `try_load` (core/serialization/serialization.h,
not under src/) applied to the binary mesh archive.  Per the spec's
decoder and failure-policy contracts, a failed decode is swallowed rather
than thrown, leaving the default-constructed `load_data` record in place
("may return empty on missing/unreadable file"); a successful decode
fills the record. -/
def try_load_mesh_data (decoded : Option mesh_load_data) : mesh_load_data :=
  match decoded with
  | none => mesh_load_data.empty
  | some d => d

/-- Modelled from the spec: `try_load` applied to the associative material
archive.  A failed decode is swallowed, leaving the wrapper's
default-constructed material in place; a successful decode replaces it. -/
def try_load_material (decoded : Option material) (wrapper : material) : material :=
  match decoded with
  | none => wrapper
  | some m => m

/-- Embedding of `load_from_file<mesh>::read_memory_func` (asset_reader.cpp:168-185):
`try_load` decodes the binary archive into a `load_data` record, leaving
it default-constructed when the decode fails (missing or unreadable file);
the record is then fed into the native mesh builder.  The expression
`&data.vertex_data[0]` indexes element 0 of the vertex byte vector, so the
embedding is fallible: `none` models the out-of-bounds access performed
when that vector is empty. -/
def mesh_read_memory_func (menv : mesh_env) (decoded : Option mesh_load_data)
    (wrapper : mesh) : Option (mesh × Bool) :=
  let data := try_load_mesh_data decoded
  let m1 := menv.prepare_mesh wrapper data.vertex_format
  match data.vertex_data[0]? with
  | none => none
  | some b0 =>
    let m2 := menv.set_vertex_source m1 b0 data.vertex_count data.vertex_format
    let m3 := menv.add_primitives m2 data.triangle_data
    let m4 := menv.bind_skin m3 data.skin_data
    let m5 := menv.bind_armature m4 data.root_node
    let m6 := menv.end_prepare m5
    some (m6, true)

/-- Embedding of `load_from_file<mesh>::create_resource_func` (asset_reader.cpp:187-201):
builds the vertex and index buffers, publishes the native mesh into the
handle only when its status is `prepared`, and resets the wrapper pointer
on every path.  Result: (handle after, wrapper after). -/
def mesh_create_resource_func (menv : mesh_env) (key : String)
    (result : asset_handle mesh) (wrapper : mesh) :
    asset_handle mesh × Option mesh :=
  let built := menv.build_ib (menv.build_vb wrapper)
  if built.status = mesh_status.prepared then
    ({ link := { id := key, asset := some built } }, none)
  else
    (result, none)

/-- Embedding of `load_from_file<material>::read_memory_func` (asset_reader.cpp:232-240):
`try_load` decodes the associative archive into the wrapper's material,
leaving the default-constructed material in place when the decode yields
nothing; always returns true. -/
def material_read_memory_func (decoded : Option material) (wrapper : material) :
    material × Bool :=
  (try_load_material decoded wrapper, true)

/-- Embedding of `load_from_file<material>::create_resource_func` (asset_reader.cpp:242-249):
unconditionally publishes the wrapper's material into the handle (no
emptiness check), then resets the wrapper pointer. -/
def material_create_resource_func (key : String)
    (result : asset_handle material) (wrapper : material) :
    asset_handle material × Option material :=
  let _ := result
  ({ link := { id := key, asset := some wrapper } }, none)

/-- Embedding of `load_from_file<prefab>::read_memory_func` (asset_reader.cpp:275-285):
returns false if the captured stream pointer is null, otherwise wraps the
file's bytes in an input stream and returns true. -/
def prefab_read_memory_func (fsenv : fs_env) (compiled_absolute_key : String)
    (read_memory : Option istream) : Option istream × Bool :=
  match read_memory with
  | none => (none, false)
  | some _ => (some { contents := fsenv.read_stream compiled_absolute_key }, true)

/-- Embedding of `load_from_file<prefab>::create_resource_func` (asset_reader.cpp:287-296):
unconditionally builds a prefab holding the fetched stream and publishes
it into the handle; the stream pointer is neither cleared nor reset. -/
def prefab_create_resource_func (key : String)
    (result : asset_handle prefab) (read_memory : Option istream) :
    asset_handle prefab × Option istream :=
  let _ := result
  ({ link := { id := key, asset := some { data := read_memory } } }, read_memory)

/-- Embedding of `load_from_file<scene>::read_memory_func` (asset_reader.cpp:323-333):
identical control flow to the prefab fetch. -/
def scene_read_memory_func (fsenv : fs_env) (compiled_absolute_key : String)
    (read_memory : Option istream) : Option istream × Bool :=
  match read_memory with
  | none => (none, false)
  | some _ => (some { contents := fsenv.read_stream compiled_absolute_key }, true)

/-- Embedding of `load_from_file<scene>::create_resource_func` (asset_reader.cpp:335-344):
unconditionally builds a scene holding the fetched stream and publishes it
into the handle; the stream pointer is neither cleared nor reset. -/
def scene_create_resource_func (key : String)
    (result : asset_handle scene) (read_memory : Option istream) :
    asset_handle scene × Option istream :=
  let _ := result
  ({ link := { id := key, asset := some { data := read_memory } } }, read_memory)

/-- Embedding of `load_from_memory<shader>` (asset_reader.cpp:363-403): the single
closure pushed with `push_ready_on_main`.  Returns the produced handle and
whether execution proceeded past the emptiness guard to native resource
creation (`gfx::copy`).  The guard rejects only when the data pointer is
null AND the size is zero. -/
def load_from_memory_shader (genv : gfx_env) (key : String)
    (data : Option byte_array_t) (size : Nat) : asset_handle shader × Bool :=
  let result := asset_handle.empty shader
  if data = none ∧ size = 0 then
    (result, false)
  else
    match genv.copy data size with
    | none => (result, true)
    | some mem =>
      let h := genv.createShader mem
      let uniforms := (genv.getShaderUniforms h).map (fun uni => { handle := uni : uniform })
      ({ link := { id := key, asset := some { handle := h, uniforms := uniforms } } }, true)

/-- The full synchronous `load_from_file<texture>` run: resolve the key to
the compiled path, allocate a fresh empty byte buffer
(`std::make_shared<fs::byte_array_t>()`), run the Fetch stage, then run
the Materialize stage on the fetched buffer.  In sync mode both stages are
on the main lane (`load_from_file_texture_submissions`), Materialize
chained after Fetch, so the sequential composition is their execution
order. -/
def load_from_file_texture_sync_run (fsenv : fs_env) (genv : gfx_env)
    (key : String) (original : asset_handle texture) : asset_handle texture :=
  let compiled_absolute_key := fsenv.resolve_protocol key ++ fsenv.compiled_format_texture
  let read_memory : Option byte_array_t := some []
  let fetched := texture_read_memory_func fsenv compiled_absolute_key read_memory
  (texture_create_resource_func genv key original fetched.1).1

/-! ## Camera clip-plane setters (`Camera.cpp`)

Only the state read or written by `setNearClip` / `setFarClip` /
`onModified` is modelled.  The clip distances are `float` in the source;
since the setters only compare and assign them (no arithmetic), they are
embedded as rationals, which is faithful for every non-NaN input.  The
setters are mutually recursive in the source; the recursion depth is at
most two in every execution, so they are embedded fuel-indexed and the
public setters fix the fuel at 2, with a lemma showing any larger fuel
gives the same result. -/

/-- The camera fields touched by the clip-plane setters. -/
structure Camera where
  mNearClip : ℚ
  mFarClip : ℚ
  mViewDirty : Bool
  mProjectionDirty : Bool
  mFrustumDirty : Bool
deriving DecidableEq

/-- Embedding of `Camera::onModified` (Camera.cpp:965-973): marks view, projection and
frustum dirty. -/
def Camera.onModified (c : Camera) : Camera :=
  { c with mViewDirty := true, mProjectionDirty := true, mFrustumDirty := true }

mutual

/-- Fuel-indexed `Camera::setNearClip` (Camera.cpp:154-168): skip on
no-op, store the value, `onModified`, then pull the far plane down to the
new near value if the near plane now exceeds it. -/
def setNearClipFuel : Nat → Camera → ℚ → Camera
  | 0, c, _ => c
  | fuel + 1, c, fDistance =>
    if fDistance = c.mNearClip then
      c
    else
      let c1 := Camera.onModified { c with mNearClip := fDistance }
      if c1.mNearClip > c1.mFarClip then
        setFarClipFuel fuel c1 c1.mNearClip
      else
        c1

/-- Fuel-indexed `Camera::setFarClip` (Camera.cpp:176-190): skip on no-op,
store the value, `onModified`, then pull the near plane up to the new far
value if the near plane now exceeds it. -/
def setFarClipFuel : Nat → Camera → ℚ → Camera
  | 0, c, _ => c
  | fuel + 1, c, fDistance =>
    if fDistance = c.mFarClip then
      c
    else
      let c1 := Camera.onModified { c with mFarClip := fDistance }
      if c1.mNearClip > c1.mFarClip then
        setNearClipFuel fuel c1 c1.mFarClip
      else
        c1

end

/-- Embedding of `Camera::setNearClip`: fuel 2 covers every execution (see
`setNearClipFuel_eq_of_le`). -/
def Camera.setNearClip (c : Camera) (fDistance : ℚ) : Camera :=
  setNearClipFuel 2 c fDistance

/-- Embedding of `Camera::setFarClip`: fuel 2 covers every execution (see
`setFarClipFuel_eq_of_le`). -/
def Camera.setFarClip (c : Camera) (fDistance : ℚ) : Camera :=
  setFarClipFuel 2 c fDistance

/-- The inner recursive call of `setNearClip` passes the just-stored near
value to `setFarClip`; there the no-op guard fails and, after the far
plane is overwritten with that value, the planes are equal, so no further
recursion happens for any positive fuel. -/
theorem setFarClipFuel_inner (fuel : Nat) (c : Camera)
    (h : c.mNearClip > c.mFarClip) :
    setFarClipFuel (fuel + 1) c c.mNearClip =
      Camera.onModified { c with mFarClip := c.mNearClip } := by
  have hne : c.mNearClip ≠ c.mFarClip := ne_of_gt h
  simp only [setFarClipFuel, hne, if_false]
  have : ¬ (Camera.onModified { c with mFarClip := c.mNearClip }).mNearClip >
      (Camera.onModified { c with mFarClip := c.mNearClip }).mFarClip := by
    simp [Camera.onModified]
  simp [this]

/-- The inner recursive call of `setFarClip` likewise terminates at depth
one for any positive fuel. -/
theorem setNearClipFuel_inner (fuel : Nat) (c : Camera)
    (h : c.mNearClip > c.mFarClip) :
    setNearClipFuel (fuel + 1) c c.mFarClip =
      Camera.onModified { c with mNearClip := c.mFarClip } := by
  have hne : c.mFarClip ≠ c.mNearClip := ne_of_lt h
  simp only [setNearClipFuel, hne, if_false]
  have : ¬ (Camera.onModified { c with mNearClip := c.mFarClip }).mNearClip >
      (Camera.onModified { c with mNearClip := c.mFarClip }).mFarClip := by
    simp [Camera.onModified]
  simp [this]

/-- Fuel adequacy: beyond fuel 2 the embedded `setNearClip` is
fuel-independent, so `Camera.setNearClip` is the function the source
computes. -/
theorem setNearClipFuel_eq_of_le (fuel : Nat) (c : Camera) (d : ℚ) :
    setNearClipFuel (fuel + 2) c d = setNearClipFuel 2 c d := by
  by_cases hd : d = c.mNearClip
  · simp [setNearClipFuel, hd]
  · simp only [setNearClipFuel, hd, if_false]
    by_cases hgt : (Camera.onModified { c with mNearClip := d }).mNearClip >
        (Camera.onModified { c with mNearClip := d }).mFarClip
    · simp only [hgt, if_true]
      rw [show (Camera.onModified { c with mNearClip := d }).mNearClip =
            (Camera.onModified { c with mNearClip := d }).mNearClip from rfl] at hgt
      rw [setFarClipFuel_inner fuel _ hgt, setFarClipFuel_inner 0 _ hgt]
    · simp [hgt]

/-- Fuel adequacy for the embedded `setFarClip`. -/
theorem setFarClipFuel_eq_of_le (fuel : Nat) (c : Camera) (d : ℚ) :
    setFarClipFuel (fuel + 2) c d = setFarClipFuel 2 c d := by
  by_cases hd : d = c.mFarClip
  · simp [setFarClipFuel, hd]
  · simp only [setFarClipFuel, hd, if_false]
    by_cases hgt : (Camera.onModified { c with mFarClip := d }).mNearClip >
        (Camera.onModified { c with mFarClip := d }).mFarClip
    · simp only [hgt, if_true]
      rw [setNearClipFuel_inner fuel _ hgt, setNearClipFuel_inner 0 _ hgt]
    · simp [hgt]

/-! ## Concrete collaborator environments used by witnesses -/

/-- A filesystem where every compiled file reads as the bytes `[1, 2, 3]`. -/
def fs_env0 : fs_env :=
  { resolve_protocol := fun s => s,
    compiled_format_texture := ".asset",
    read_stream := fun _ => [1, 2, 3] }

/-- A gfx layer whose `copy` succeeds with the given bytes, whose shaders
get native handle 7, and whose reflection reports uniform handles
`[3, 4, 5]`. -/
def gfx_env0 : gfx_env :=
  { copy := fun d _ => d,
    createShader := fun _ => 7,
    getShaderUniforms := fun _ => [3, 4, 5] }

/-- A native mesh builder whose operations leave the mesh unchanged, so
the post-build status is whatever the fetch stage left. -/
def mesh_env0 : mesh_env :=
  { prepare_mesh := fun m _ => m,
    set_vertex_source := fun m _ _ _ => m,
    add_primitives := fun m _ => m,
    bind_skin := fun m _ => m,
    bind_armature := fun m _ => m,
    end_prepare := fun m => m,
    build_vb := fun m => m,
    build_ib := fun m => m }

/-! ## Claims -/

/-- C1 (counterexample): the claim fails for the material kind.  When the
Fetch stage read nothing (the decode produced nothing, leaving the
default-constructed material in the wrapper), the material Materialize
closure still overwrites a previously-populated handle: its identity
becomes the new key and its payload the default material, so the handle is
not returned unchanged. -/
theorem C1_material_counterexample :
    (material_create_resource_func "k"
        { link := { id := "old", asset := some { data := [1] } } }
        (material_read_memory_func none material.empty).1).1
      ≠ { link := { id := "old", asset := some { data := [1] } } } := by
  decide

/-- C1 (amended): for the texture and shader kinds (whose Materialize
closure is shared by both load modes), an empty Fetch byte array makes
Materialize return the original handle with identity and payload
unchanged — including a previously-populated handle — and it leaves the
buffer untouched; material, prefab and scene have no such emptiness
guard. -/
theorem C1_empty_fetch_passthrough (genv : gfx_env) (key : String)
    (ht : asset_handle texture) (hs : asset_handle shader) :
    texture_create_resource_func genv key ht (some []) = (ht, some []) ∧
    shader_create_resource_func genv key hs (some []) = (hs, some []) :=
  ⟨rfl, rfl⟩

/-- C2: if after `build_vb` / `build_ib` the native mesh's status is not
`mesh_status::prepared`, the mesh Materialize closure returns the target
handle exactly as it was, identity and payload unmutated. -/
theorem C2_mesh_unprepared_no_publish (menv : mesh_env) (key : String)
    (result : asset_handle mesh) (wrapper : mesh)
    (h : (menv.build_ib (menv.build_vb wrapper)).status ≠ mesh_status.prepared) :
    (mesh_create_resource_func menv key result wrapper).1 = result := by
  unfold mesh_create_resource_func
  simp [h]

/-- Witness for C2 at a concrete builder and an unprepared mesh. -/
theorem C2_mesh_unprepared_no_publish_witness :
    ((mesh_env0.build_ib (mesh_env0.build_vb { status := mesh_status.not_prepared, content := 0 })).status
        ≠ mesh_status.prepared) ∧
    (mesh_create_resource_func mesh_env0 "k" (asset_handle.empty mesh)
        { status := mesh_status.not_prepared, content := 0 }).1 = asset_handle.empty mesh :=
  ⟨by decide,
   C2_mesh_unprepared_no_publish mesh_env0 "k" (asset_handle.empty mesh)
     { status := mesh_status.not_prepared, content := 0 } (by decide)⟩

/-- C3: for every resource kind and both load modes, the Materialize stage
of `load_from_file` is submitted with `push_awaitable_on_main` — a
main-lane continuation chained to the Fetch future — so the pipeline's
graphics-API calls (which occur only inside the Materialize closures)
never execute off the main lane. -/
theorem C3_materialize_on_main :
    ∀ (k : resource_kind) (m : load_mode),
      (load_from_file_submissions k m).materialize = push_awaitable_on_main ∧
      (load_from_file_submissions k m).materialize.lane = lane.main ∧
      (load_from_file_submissions k m).materialize.chained = true := by
  intro k m
  cases k <;> cases m <;> exact ⟨rfl, rfl, rfl⟩

/-- C4: for every resource kind, the load mode selects exactly the Fetch
lane — sync submits Fetch with `push_ready_on_main`, async with
`push_ready` — and in both modes the only chained (continuation)
submission is Materialize, on the main lane. -/
theorem C4_mode_selects_fetch_lane :
    ∀ (k : resource_kind),
      (load_from_file_submissions k load_mode.sync).fetch = push_ready_on_main ∧
      (load_from_file_submissions k load_mode.async).fetch = push_ready ∧
      ∀ (m : load_mode),
        (load_from_file_submissions k m).fetch.chained = false ∧
        (load_from_file_submissions k m).materialize = push_awaitable_on_main := by
  intro k
  refine ⟨?_, ?_, ?_⟩
  · cases k <;> rfl
  · cases k <;> rfl
  · intro m
    cases k <;> cases m <;> exact ⟨rfl, rfl⟩

/-- C5: for the mesh kind, when the source file is missing or unreadable
the decode yields nothing and `try_load` leaves the `load_data` record
default-constructed with an empty vertex byte vector; the fetch closure
then evaluates `&data.vertex_data[0]`, an out-of-bounds access on the
empty vector, so the embedded closure faults (`none`) instead of
completing with `true` as the claim requires. -/
theorem C5_mesh_fetch_out_of_bounds (menv : mesh_env) (wrapper : mesh) :
    mesh_read_memory_func menv none wrapper = none :=
  rfl

/-- C6: whenever a shader is materialized from non-empty bytes — via the
`load_from_file<shader>` Materialize closure or via
`load_from_memory<shader>` — the published shader carries exactly one
uniform object per reflected uniform handle, in the order the reflection
API returned them (so in particular the counts are equal). -/
theorem C6_shader_uniforms_match_reflection (genv : gfx_env) (key : String)
    (hs : asset_handle shader) (bytes mem : byte_array_t)
    (data : Option byte_array_t) (size : Nat) (mem2 : byte_array_t)
    (hb : bytes ≠ []) (hm : genv.copy (some bytes) bytes.length = some mem)
    (hguard : ¬(data = none ∧ size = 0)) (hm2 : genv.copy data size = some mem2) :
    ((shader_create_resource_func genv key hs (some bytes)).1.link.asset =
        some { handle := genv.createShader mem,
               uniforms := (genv.getShaderUniforms (genv.createShader mem)).map
                 (fun uni => { handle := uni : uniform }) } ∧
      ∀ s : shader,
        (shader_create_resource_func genv key hs (some bytes)).1.link.asset = some s →
          s.uniforms.map (fun u => u.handle) = genv.getShaderUniforms s.handle ∧
          s.uniforms.length = (genv.getShaderUniforms s.handle).length) ∧
    ((load_from_memory_shader genv key data size).1.link.asset =
        some { handle := genv.createShader mem2,
               uniforms := (genv.getShaderUniforms (genv.createShader mem2)).map
                 (fun uni => { handle := uni : uniform }) } ∧
      ∀ s : shader,
        (load_from_memory_shader genv key data size).1.link.asset = some s →
          s.uniforms.map (fun u => u.handle) = genv.getShaderUniforms s.handle ∧
          s.uniforms.length = (genv.getShaderUniforms s.handle).length) := by
  have hfile : (shader_create_resource_func genv key hs (some bytes)).1.link.asset =
      some { handle := genv.createShader mem,
             uniforms := (genv.getShaderUniforms (genv.createShader mem)).map
               (fun uni => { handle := uni : uniform }) } := by
    unfold shader_create_resource_func
    simp [hb, hm]
  have hmemo : (load_from_memory_shader genv key data size).1.link.asset =
      some { handle := genv.createShader mem2,
             uniforms := (genv.getShaderUniforms (genv.createShader mem2)).map
               (fun uni => { handle := uni : uniform }) } := by
    unfold load_from_memory_shader
    simp [hguard, hm2]
  refine ⟨⟨hfile, ?_⟩, ⟨hmemo, ?_⟩⟩
  · intro s hsome
    rw [hfile] at hsome
    cases Option.some.inj hsome
    constructor
    · rw [List.map_map]
      exact List.map_id _
    · simp
  · intro s hsome
    rw [hmemo] at hsome
    cases Option.some.inj hsome
    constructor
    · rw [List.map_map]
      exact List.map_id _
    · simp

/-- Witness for C6 at a concrete gfx layer reflecting three uniforms. -/
theorem C6_shader_uniforms_match_reflection_witness :
    (([1, 2] : byte_array_t) ≠ []) ∧
    (gfx_env0.copy (some [1, 2]) ([1, 2] : byte_array_t).length = some [1, 2]) ∧
    ¬((some [9] : Option byte_array_t) = none ∧ (1 : Nat) = 0) ∧
    (gfx_env0.copy (some [9]) 1 = some [9]) ∧
    (((shader_create_resource_func gfx_env0 "k" (asset_handle.empty shader) (some [1, 2])).1.link.asset =
        some { handle := gfx_env0.createShader [1, 2],
               uniforms := (gfx_env0.getShaderUniforms (gfx_env0.createShader [1, 2])).map
                 (fun uni => { handle := uni : uniform }) } ∧
      ∀ s : shader,
        (shader_create_resource_func gfx_env0 "k" (asset_handle.empty shader) (some [1, 2])).1.link.asset = some s →
          s.uniforms.map (fun u => u.handle) = gfx_env0.getShaderUniforms s.handle ∧
          s.uniforms.length = (gfx_env0.getShaderUniforms s.handle).length) ∧
    ((load_from_memory_shader gfx_env0 "k" (some [9]) 1).1.link.asset =
        some { handle := gfx_env0.createShader [9],
               uniforms := (gfx_env0.getShaderUniforms (gfx_env0.createShader [9])).map
                 (fun uni => { handle := uni : uniform }) } ∧
      ∀ s : shader,
        (load_from_memory_shader gfx_env0 "k" (some [9]) 1).1.link.asset = some s →
          s.uniforms.map (fun u => u.handle) = gfx_env0.getShaderUniforms s.handle ∧
          s.uniforms.length = (gfx_env0.getShaderUniforms s.handle).length)) :=
  ⟨by decide, rfl, by decide, rfl,
   C6_shader_uniforms_match_reflection gfx_env0 "k" (asset_handle.empty shader)
     [1, 2] [1, 2] (some [9]) 1 [9] (by decide) rfl (by decide) rfl⟩

/-- C7 (counterexample): the claim fails for the prefab kind.  After the
prefab Materialize closure consumes a non-empty fetched stream, the stream
pointer is not released: it is still held after the call (and stored
inside the published resource), so the fetched bytes outlive the
Materialize stage. -/
theorem C7_prefab_counterexample :
    (prefab_create_resource_func "k" (asset_handle.empty prefab)
        (some { contents := [1, 2] })).2 ≠ none := by
  decide

/-- C7 (amended): for the texture, shader, mesh and material kinds, the
Materialize closure releases the intermediate Fetch buffer before
returning — the texture/shader byte array is cleared and its shared
pointer reset on every path past the emptiness guard, and the mesh and
material wrappers are reset on every path; the prefab and scene closures
instead store the fetched stream inside the published resource. -/
theorem C7_buffer_released (genv : gfx_env) (menv : mesh_env) (key : String)
    (ht : asset_handle texture) (hs : asset_handle shader)
    (hm : asset_handle mesh) (hmat : asset_handle material)
    (bytes : byte_array_t) (wrapper : mesh) (mat : material)
    (hb : bytes ≠ []) :
    (texture_create_resource_func genv key ht (some bytes)).2 = none ∧
    (shader_create_resource_func genv key hs (some bytes)).2 = none ∧
    (mesh_create_resource_func menv key hm wrapper).2 = none ∧
    (material_create_resource_func key hmat mat).2 = none := by
  refine ⟨?_, ?_, ?_, rfl⟩
  · unfold texture_create_resource_func
    simp only [if_neg hb]
    cases genv.copy (some bytes) bytes.length <;> rfl
  · unfold shader_create_resource_func
    simp only [if_neg hb]
    cases genv.copy (some bytes) bytes.length <;> rfl
  · unfold mesh_create_resource_func
    by_cases h : (menv.build_ib (menv.build_vb wrapper)).status = mesh_status.prepared <;>
      simp [h]

/-- Witness for C7 at concrete environments and the bytes `[1]`. -/
theorem C7_buffer_released_witness :
    (([1] : byte_array_t) ≠ []) ∧
    ((texture_create_resource_func gfx_env0 "k" (asset_handle.empty texture) (some [1])).2 = none ∧
     (shader_create_resource_func gfx_env0 "k" (asset_handle.empty shader) (some [1])).2 = none ∧
     (mesh_create_resource_func mesh_env0 "k" (asset_handle.empty mesh)
        { status := mesh_status.not_prepared, content := 0 }).2 = none ∧
     (material_create_resource_func "k" (asset_handle.empty material) material.empty).2 = none) :=
  ⟨by decide,
   C7_buffer_released gfx_env0 mesh_env0 "k" (asset_handle.empty texture)
     (asset_handle.empty shader) (asset_handle.empty mesh) (asset_handle.empty material)
     [1] { status := mesh_status.not_prepared, content := 0 } material.empty (by decide)⟩

/-- C8: a synchronous texture load of key `k` whose compiled file yields
non-empty bytes and whose `gfx::copy` yields a non-null memory block
produces, after both stages have run (sequentially on the main lane, per
`load_from_file_texture_submissions`), a handle whose identity is `k` and
whose payload is the non-null native texture over that block. -/
theorem C8_sync_texture_load (fsenv : fs_env) (genv : gfx_env) (key : String)
    (original : asset_handle texture) (mem : byte_array_t)
    (hb : fsenv.read_stream (fsenv.resolve_protocol key ++ fsenv.compiled_format_texture) ≠ [])
    (hm : genv.copy
        (some (fsenv.read_stream (fsenv.resolve_protocol key ++ fsenv.compiled_format_texture)))
        (fsenv.read_stream (fsenv.resolve_protocol key ++ fsenv.compiled_format_texture)).length
      = some mem) :
    (load_from_file_texture_sync_run fsenv genv key original).link.id = key ∧
    (load_from_file_texture_sync_run fsenv genv key original).link.asset = some { mem := mem } := by
  unfold load_from_file_texture_sync_run texture_read_memory_func texture_create_resource_func
  simp [hb, hm]

/-- Witness for C8: synchronous load of key "foo" against the concrete
filesystem and gfx environments. -/
theorem C8_sync_texture_load_witness :
    (fs_env0.read_stream (fs_env0.resolve_protocol "foo" ++ fs_env0.compiled_format_texture) ≠ []) ∧
    ((load_from_file_texture_sync_run fs_env0 gfx_env0 "foo" (asset_handle.empty texture)).link.id = "foo" ∧
     (load_from_file_texture_sync_run fs_env0 gfx_env0 "foo" (asset_handle.empty texture)).link.asset
       = some { mem := [1, 2, 3] }) :=
  ⟨by decide,
   C8_sync_texture_load fs_env0 gfx_env0 "foo" (asset_handle.empty texture) [1, 2, 3]
     (by decide) rfl⟩

/-- C9: `load_from_memory<shader>` stops at the emptiness guard (never
reaching native resource creation) exactly when the data pointer is null
AND the size is zero, in which case it returns the default-constructed
handle; in particular a null data pointer with a non-zero size passes the
guard and proceeds to native resource creation. -/
theorem C9_memory_shader_guard :
    ∀ (genv : gfx_env) (key : String) (data : Option byte_array_t) (size : Nat),
      ((load_from_memory_shader genv key data size).2 = false ↔ data = none ∧ size = 0) ∧
      (load_from_memory_shader genv key none 0).1 = asset_handle.empty shader ∧
      (load_from_memory_shader genv key none (size + 1)).2 = true := by
  intro genv key data size
  refine ⟨?_, rfl, ?_⟩
  · by_cases h : data = none ∧ size = 0
    · simp [load_from_memory_shader, h]
    · simp only [load_from_memory_shader, if_neg h]
      cases genv.copy data size <;> simp [h]
  · have h : ¬((none : Option byte_array_t) = none ∧ size + 1 = 0) := by simp
    simp only [load_from_memory_shader, if_neg h]
    cases genv.copy none (size + 1) <;> rfl

/-- C10: for any camera whose planes satisfy `mNearClip ≤ mFarClip`, a
single call to `setNearClip d` or `setFarClip d` (floats modelled as
rationals, which excludes NaN) re-establishes `mNearClip ≤ mFarClip`:
whichever setter would violate it calls the other to pull the opposite
plane to the new value. -/
theorem C10_clip_invariant (c : Camera) (d : ℚ)
    (hinv : c.mNearClip ≤ c.mFarClip) :
    (c.setNearClip d).mNearClip ≤ (c.setNearClip d).mFarClip ∧
    (c.setFarClip d).mNearClip ≤ (c.setFarClip d).mFarClip := by
  constructor
  · unfold Camera.setNearClip
    by_cases hd : d = c.mNearClip
    · simpa [setNearClipFuel, hd] using hinv
    · simp only [setNearClipFuel, hd, if_false]
      by_cases hgt : (Camera.onModified { c with mNearClip := d }).mNearClip >
          (Camera.onModified { c with mNearClip := d }).mFarClip
      · rw [if_pos hgt, setFarClipFuel_inner _ _ hgt]
        simp [Camera.onModified]
      · rw [if_neg hgt]
        exact le_of_not_lt hgt
  · unfold Camera.setFarClip
    by_cases hd : d = c.mFarClip
    · simpa [setFarClipFuel, hd] using hinv
    · simp only [setFarClipFuel, hd, if_false]
      by_cases hgt : (Camera.onModified { c with mFarClip := d }).mNearClip >
          (Camera.onModified { c with mFarClip := d }).mFarClip
      · rw [if_pos hgt, setNearClipFuel_inner _ _ hgt]
        simp [Camera.onModified]
      · rw [if_neg hgt]
        exact le_of_not_lt hgt

/-- Witness for C10 at a concrete camera (near 1, far 1000) and the new
near distance 5000, which forces the far plane to follow. -/
theorem C10_clip_invariant_witness :
    ((1 : ℚ) ≤ 1000) ∧
    (let c : Camera := { mNearClip := 1, mFarClip := 1000, mViewDirty := false,
                         mProjectionDirty := false, mFrustumDirty := false };
     (c.setNearClip 5000).mNearClip ≤ (c.setNearClip 5000).mFarClip ∧
     (c.setFarClip 5000).mNearClip ≤ (c.setFarClip 5000).mFarClip) :=
  ⟨by norm_num,
   C10_clip_invariant
     { mNearClip := 1, mFarClip := 1000, mViewDirty := false,
       mProjectionDirty := false, mFrustumDirty := false } 5000 (by norm_num)⟩

end EtherealEngine
